import Mathlib

/-!
Verification of the `nucled` LED-control library (`src/nucled/nucled.py`).

The embedding translates the Python class `LED` (with its subclasses `Ring`
and `Power`) into pure Lean functions.  Stateful methods become explicit
state-passing functions of type `LEDState → Device → Except LedError α ×
LEDState × Device`: Python exceptions are modelled by the `Except` error
component, and — exactly as in Python — an exception does *not* roll back
the in-memory fields mutated before the raise, so the state component is
threaded through error results as well.  The device pseudo-file is modelled
by `Device`: reads return `Device.text` and bump a read counter, writes are
appended to `Device.writes`.  All string processing is done with hand-rolled
structural functions over `List Char` mirroring the Python `str` methods
used by the source (`strip`, `split`, `startswith`, `in`, `lower`,
`int(...)`, `int(..., 16)`, and the regex `\((.+)\)`).
-/

namespace Nucled

/-- The `Color` enum of `nucled.py` (closed, nine variants). -/
inductive Color where
  | Off | Amber | Cyan | Pink | Yellow | Blue | Red | Green | White
deriving DecidableEq, Repr

/-- `Color.value`: the symbolic string of each enum member in `nucled.py`. -/
def Color.value : Color → String
  | .Off => "off"
  | .Amber => "amber"
  | .Cyan => "cyan"
  | .Pink => "pink"
  | .Yellow => "yellow"
  | .Blue => "blue"
  | .Red => "red"
  | .Green => "green"
  | .White => "white"

/-- Python `Color(s)`: resolve a symbolic name to the enum member, `none` when
no variant has that value (Python raises `ValueError`). -/
def colorOfValue : String → Option Color
  | "off" => some .Off
  | "amber" => some .Amber
  | "cyan" => some .Cyan
  | "pink" => some .Pink
  | "yellow" => some .Yellow
  | "blue" => some .Blue
  | "red" => some .Red
  | "green" => some .Green
  | "white" => some .White
  | _ => none

/-- The `Effect` enum of `nucled.py`. -/
inductive Effect where
  | BlinkFast | BlinkMedium | BlinkSlow | FadeFast | FadeMedium | FadeSlow | Solid
deriving DecidableEq, Repr

/-- `Effect.value`: the symbolic string of each enum member (`Solid` is `"none"`). -/
def Effect.value : Effect → String
  | .BlinkFast => "blink_fast"
  | .BlinkMedium => "blink_medium"
  | .BlinkSlow => "blink_slow"
  | .FadeFast => "fade_fast"
  | .FadeMedium => "fade_medium"
  | .FadeSlow => "fade_slow"
  | .Solid => "none"

/-- Python `Effect(s)`: resolve a symbolic name to the enum member. -/
def effectOfValue : String → Option Effect
  | "blink_fast" => some .BlinkFast
  | "blink_medium" => some .BlinkMedium
  | "blink_slow" => some .BlinkSlow
  | "fade_fast" => some .FadeFast
  | "fade_medium" => some .FadeMedium
  | "fade_slow" => some .FadeSlow
  | "none" => some .Solid
  | _ => none

/-- The global `EFFECT_MAP` dict of `nucled.py` (codes `0x00`–`0x07`; both
`0x00` and `0x04` map to `Solid`).  Modelled as an association list with the
dict's insertion order. -/
def EFFECT_MAP : List (Int × Effect) :=
  [(0, .Solid), (1, .BlinkFast), (2, .BlinkSlow), (3, .FadeFast),
   (4, .Solid), (5, .BlinkMedium), (6, .FadeSlow), (7, .FadeMedium)]

/-- `Ring.supported_colors` from `nucled.py`. -/
def ringColors : List (Int × Color) :=
  [(0, .Off), (1, .Cyan), (2, .Pink), (3, .Yellow),
   (4, .Blue), (5, .Red), (6, .Green), (7, .White)]

/-- `Power.supported_colors` from `nucled.py`. -/
def powerColors : List (Int × Color) :=
  [(0, .Off), (1, .Blue), (2, .Amber)]

/-- Which LED an instance addresses: the `Ring`/`Power` subclasses of `LED`. -/
inductive Target where
  | ring | power
deriving DecidableEq, Repr

/-- The `_target` string of the instance (`"ring"` / `"power"`). -/
def Target.name : Target → String
  | .ring => "ring"
  | .power => "power"

/-- The per-subclass `supported_colors` dict. -/
def Target.colorMap : Target → List (Int × Color)
  | .ring => ringColors
  | .power => powerColors

/-- Python `self.supported_colors.values()` in the dict's insertion order. -/
def supportedColorValues (t : Target) : List Color :=
  t.colorMap.map Prod.snd

/-- The in-memory fields of one `LED` instance: `_brightness`, `_color`,
`_effect` all start as `None` in `__init__`. -/
structure LEDState where
  target : Target
  brightness : Option Int
  color : Option Color
  effect : Option Effect
deriving DecidableEq, Repr

/-- A fresh instance right after `__init__` (all three fields `None`). -/
def freshLED (t : Target) : LEDState := ⟨t, none, none, none⟩

/-- The device pseudo-file `/proc/acpi/nuc_led`: `text` is what a read
returns, `writes` records every written command string in order, `reads`
counts the reads (so theorems can state that no fetch happened). -/
structure Device where
  text : String
  writes : List String
  reads : Nat
deriving DecidableEq, Repr

/-- Appending a command string to the device (Python `f.write(x)`). -/
def writeDev (d : Device) (x : String) : Device :=
  ⟨d.text, d.writes ++ [x], d.reads⟩

/-- The Python exceptions the source can raise, one constructor per distinct
raise site (names follow the spec's error vocabulary where it has one). -/
inductive LedError where
  | MalformedStateLine
  | UnknownEffectCode
  | UnknownColorCode
  | UnknownColorName
  | UnknownEffectName
  | UnsupportedColor
  | BrightnessOutOfRange
  | NoneDereference
  | RegexNoMatch
  | IntParseError
  | Interrupted
  | SleepValueError
deriving DecidableEq, Repr

/-! ## String primitives mirroring the Python `str` operations -/

/-- Python's default `str.strip` whitespace set. -/
def isPySpace (c : Char) : Bool :=
  c == ' ' || c == '\t' || c == '\n' || c == '\r' || c == '\x0b' || c == '\x0c'

/-- Python `s.strip()` over a character list. -/
def pyStrip (l : List Char) : List Char :=
  ((l.dropWhile isPySpace).reverse.dropWhile isPySpace).reverse

/-- Python `s.strip("%")`: drop leading and trailing `%` characters. -/
def stripPct (l : List Char) : List Char :=
  ((l.dropWhile (· == '%')).reverse.dropWhile (· == '%')).reverse

/-- Python `s.split(sep)` for a one-character separator: all occurrences
split (no maxsplit!), `"".split(c) = [""]`. -/
def splitOnChar (sep : Char) : List Char → List (List Char)
  | [] => [[]]
  | c :: rest =>
    let r := splitOnChar sep rest
    if c == sep then [] :: r
    else
      match r with
      | h :: t => (c :: h) :: t
      | [] => [[c]]

/-- Python `s.lower()` (ASCII, which is all the source needs). -/
def lowerList (l : List Char) : List Char := l.map Char.toLower

/-- Python `s.startswith(pat)`: `listStartsWith s pat`. -/
def listStartsWith : List Char → List Char → Bool
  | _, [] => true
  | [], _ :: _ => false
  | a :: as, b :: bs => a == b && listStartsWith as bs

/-- Python `pat in s` (substring containment): `containsSub pat s`. -/
def containsSub (pat : List Char) : List Char → Bool
  | [] => listStartsWith [] pat
  | c :: rest => listStartsWith (c :: rest) pat || containsSub pat rest

/-- Decimal digit value. -/
def digitVal (c : Char) : Option Nat :=
  if '0' ≤ c && c ≤ '9' then some (c.toNat - 48) else none

def decAccum : List Char → Nat → Option Nat
  | [], acc => some acc
  | c :: r, acc =>
    match digitVal c with
    | some d => decAccum r (acc * 10 + d)
    | none => none

/-- A nonempty all-decimal-digit run to its value. -/
def decDigitsToNat : List Char → Option Nat
  | [] => none
  | c :: r => decAccum (c :: r) 0

/-- Python `int(s)` (base 10): optional surrounding whitespace, optional
sign, at least one digit.  (Digit-group underscores are not modelled; no
claim exercises them.) -/
def pyInt (l : List Char) : Option Int :=
  match pyStrip l with
  | '-' :: rest => (decDigitsToNat rest).map (fun n => -(n : Int))
  | '+' :: rest => (decDigitsToNat rest).map (fun n => (n : Int))
  | rest => (decDigitsToNat rest).map (fun n => (n : Int))

/-- Hexadecimal digit value. -/
def hexVal (c : Char) : Option Nat :=
  if '0' ≤ c && c ≤ '9' then some (c.toNat - 48)
  else if 'a' ≤ c && c ≤ 'f' then some (c.toNat - 87)
  else if 'A' ≤ c && c ≤ 'F' then some (c.toNat - 55)
  else none

def hexAccum : List Char → Nat → Option Nat
  | [], acc => some acc
  | c :: r, acc =>
    match hexVal c with
    | some d => hexAccum r (acc * 16 + d)
    | none => none

/-- A nonempty all-hex-digit run to its value. -/
def hexDigitsToNat : List Char → Option Nat
  | [] => none
  | c :: r => hexAccum (c :: r) 0

/-- Strip an optional `0x` / `0X` marker. -/
def dropHexMarker : List Char → List Char
  | '0' :: 'x' :: rest => rest
  | '0' :: 'X' :: rest => rest
  | l => l

def hexBody (l : List Char) : Option Nat := hexDigitsToNat (dropHexMarker l)

/-- Python `int(s, 16)`: optional whitespace, optional sign, optional `0x`,
at least one hex digit. -/
def pyIntHex (l : List Char) : Option Int :=
  match pyStrip l with
  | '-' :: rest => (hexBody rest).map (fun n => -(n : Int))
  | '+' :: rest => (hexBody rest).map (fun n => (n : Int))
  | rest => (hexBody rest).map (fun n => (n : Int))

/-- Helper for the regex `\((.+)\)`: given the text after an opening `(`,
return the (nonempty) content before the *last* `)` — the greedy `.+` — or
`none` when no `)` with at least one preceding character exists. -/
def contentToLastClose (l : List Char) : Option (List Char) :=
  match l.reverse.dropWhile (fun c => c != ')') with
  | ')' :: rest => if rest.isEmpty then none else some rest.reverse
  | _ => none

/-- Python `re.search("\((.+)\)", v)` group 1: the leftmost `(` that has a
`)` at least two positions later, with the greedy content up to the last
`)`.  `none` when the pattern does not occur (`re.search` returns `None`). -/
def extractParen : List Char → Option (List Char)
  | [] => none
  | '(' :: rest =>
    (match contentToLastClose rest with
     | some g => some g
     | none => extractParen rest)
  | _ :: rest => extractParen rest

/-! ## The three `_parse_*` helpers of `LED` -/

/-- `LED._parse_brightness`: `int(value.strip().strip("%"))`;
`IntParseError` models the `ValueError` a failing `int()` raises. -/
def parse_brightness (v : List Char) : Except LedError Int :=
  match pyInt (stripPct (pyStrip v)) with
  | some n => .ok n
  | none => .error .IntParseError

/-- The shared regex-and-hex step of `_parse_color` / `_parse_effect`:
`int(re.search("\((.+)\)", value).groups(1)[0], 16)`.  `RegexNoMatch`
models the `AttributeError` on a `None` match object. -/
def parse_code (v : List Char) : Except LedError Int :=
  match extractParen v with
  | none => .error .RegexNoMatch
  | some g =>
    match pyIntHex g with
    | some n => .ok n
    | none => .error .IntParseError

/-- `LED._parse_effect`: decode the code through the global `EFFECT_MAP`;
`UnknownEffectCode` models the dict `KeyError`. -/
def parse_effect (v : List Char) : Except LedError Effect :=
  match parse_code v with
  | .error e => .error e
  | .ok n =>
    match EFFECT_MAP.lookup n with
    | some e => .ok e
    | none => .error .UnknownEffectCode

/-- `LED._parse_color`: decode the code through this target's
`supported_colors`; `UnknownColorCode` models the dict `KeyError`. -/
def parse_color (t : Target) (v : List Char) : Except LedError Color :=
  match parse_code v with
  | .error e => .error e
  | .ok n =>
    match t.colorMap.lookup n with
    | some c => .ok c
    | none => .error .UnknownColorCode

/-! ## `fetch_state`

The loop body of `LED.fetch_state` touches the instance only to *assign* one
field, so each line denotes an update (`Upd`) or an exception.  The loop is
then the fold `processLines`, which stops at the first error and — like a
Python exception — keeps all updates made by the lines before it. -/

/-- The single-field assignment (if any) a status line performs. -/
inductive Upd where
  | skip
  | setB (n : Int)
  | setC (c : Color)
  | setE (e : Effect)
deriving DecidableEq, Repr

/-- Apply one line's assignment to the instance fields. -/
def applyUpd : Upd → LEDState → LEDState
  | .skip, s => s
  | .setB n, s => ⟨s.target, some n, s.color, s.effect⟩
  | .setC c, s => ⟨s.target, s.brightness, some c, s.effect⟩
  | .setE e, s => ⟨s.target, s.brightness, s.color, some e⟩

/-- One iteration of the `for l in f` loop in `LED.fetch_state`: strip the
line, skip blank and lone-null-byte lines, unpack `l.split(":")` into
exactly two names (the unpacking `ValueError` — re-raised by the bare
`except: raise` — is `MalformedStateLine`), skip lines whose lowered
description does not start with the target name, then dispatch on the
`"Brightness"` / `"Blink"` / `"Color"` substring tests in source order. -/
def handleLine (t : Target) (line : List Char) : Except LedError Upd :=
  match pyStrip line with
  | [] => .ok .skip
  | l =>
    if l == ['\x00'] then .ok .skip
    else
      match splitOnChar ':' l with
      | [desc, value] =>
        if ¬ listStartsWith (lowerList desc) t.name.toList then .ok .skip
        else if containsSub "Brightness".toList desc then
          (parse_brightness value).map .setB
        else if containsSub "Blink".toList desc then
          (parse_effect value).map .setE
        else if containsSub "Color".toList desc then
          (parse_color t value).map .setC
        else .ok .skip
      | _ => .error .MalformedStateLine

/-- The whole `for` loop of `fetch_state`: on an exception the loop stops
and the fields already assigned by earlier lines stay assigned. -/
def processLines (t : Target) : List (List Char) → LEDState → Except LedError Unit × LEDState
  | [], s => (.ok (), s)
  | l :: ls, s =>
    match handleLine t l with
    | .ok u => processLines t ls (applyUpd u s)
    | .error e => (.error e, s)

/-- Splitting the device text into the lines `for l in f` iterates over. -/
def linesOf (text : String) : List (List Char) :=
  splitOnChar '\n' text.toList

/-! ## The stateful `LED` methods -/

/-- The state-and-device-passing shape of every `LED` method: Python
exceptions (the `.error` case) keep the mutated state, they never roll it
back. -/
def LedM (α : Type) := LEDState → Device → Except LedError α × LEDState × Device

/-- Sequencing two method bodies; an exception in the first aborts the
second (ordinary Python control flow). -/
def bindM {α β : Type} (m : LedM α) (f : α → LedM β) : LedM β := fun s d =>
  match m s d with
  | (.ok a, s1, d1) => f a s1 d1
  | (.error e, s1, d1) => (.error e, s1, d1)

/-- A method body that does nothing (`pass`). -/
def pureM : LedM Unit := fun s d => (.ok (), s, d)

/-- `LED.fetch_state`: one device read, then the parsing loop. -/
def fetch_state : LedM Unit := fun s d =>
  let p := processLines s.target (linesOf d.text) s
  (p.1, p.2, ⟨d.text, d.writes, d.reads + 1⟩)

/-- The command string `"%s,%i,%s,%s" % (target, brightness, effect.value,
color.value)`. -/
def stateString (t : Target) (b : Int) (e : Effect) (c : Color) : String :=
  t.name ++ "," ++ toString b ++ "," ++ e.value ++ "," ++ c.value

/-- `LED.get_state_string`: lazily fetch *only* when `_brightness is None`,
then build the command string.  `NoneDereference` models the
`AttributeError`/`TypeError` raised when an interpolated field is still
`None`. -/
def get_state_string : LedM String := fun s d =>
  match
    (match s.brightness with
     | none => fetch_state s d
     | some _ => (.ok (), s, d)) with
  | (.error e, s1, d1) => (.error e, s1, d1)
  | (.ok _, s1, d1) =>
    match s1.brightness, s1.effect, s1.color with
    | some b, some e, some c => (.ok (stateString s1.target b e c), s1, d1)
    | _, _, _ => (.error .NoneDereference, s1, d1)

/-- `LED.set_state`: serialize and write, unconditionally. -/
def set_state : LedM Unit :=
  bindM get_state_string (fun st s d => (.ok (), s, writeDev d st))

/-- `LED.set_state_from_string`: write the raw string verbatim, then
re-fetch. -/
def set_state_from_string (x : String) : LedM Unit := fun s d =>
  fetch_state s (writeDev d x)

/-- The argument of the color setter: Python accepts a symbolic name string
or a `Color` member. -/
inductive ColorArg where
  | str (s : String)
  | col (c : Color)

/-- The `isinstance(color, str)` branch of the setter: `Color(color)`;
`UnknownColorName` models the enum-constructor `ValueError`. -/
def resolveColor : ColorArg → Except LedError Color
  | .col c => .ok c
  | .str s =>
    match colorOfValue s with
    | some c => .ok c
    | none => .error .UnknownColorName

/-- The `color` property setter: validate membership in
`supported_colors.values()`, raise `UnsupportedColor` (the source's
`LEDException`) otherwise, and only then assign `_color`. -/
def set_color_arg (ca : ColorArg) : LedM Unit := fun s d =>
  match resolveColor ca with
  | .error e => (.error e, s, d)
  | .ok c =>
    if c ∈ supportedColorValues s.target then
      (.ok (), ⟨s.target, s.brightness, some c, s.effect⟩, d)
    else
      (.error .UnsupportedColor, s, d)

/-- The `brightness` property setter: reject outside `[0, 100]`
(`BrightnessOutOfRange`, the source's `LEDException`), never clamp. -/
def set_brightness (n : Int) : LedM Unit := fun s d =>
  if n < 0 ∨ 100 < n then (.error .BrightnessOutOfRange, s, d)
  else (.ok (), ⟨s.target, some n, s.color, s.effect⟩, d)

/-- The argument of the effect setter: name string or `Effect` member. -/
inductive EffectArg where
  | str (s : String)
  | eff (e : Effect)

def resolveEffect : EffectArg → Except LedError Effect
  | .eff e => .ok e
  | .str s =>
    match effectOfValue s with
    | some e => .ok e
    | none => .error .UnknownEffectName

/-- The `effect` property setter: no per-target validation in the source. -/
def set_effect_arg (ea : EffectArg) : LedM Unit := fun s d =>
  match resolveEffect ea with
  | .error e => (.error e, s, d)
  | .ok e => (.ok (), ⟨s.target, s.brightness, s.color, some e⟩, d)

/-- `time.sleep(duration)` inside `notify`: raises `ValueError` on a
negative duration; `interrupted` models an asynchronous interrupt (e.g.
`KeyboardInterrupt` from Ctrl-C) delivered during the blocking wait, which
propagates out of the plain `time.sleep` call. -/
def sleep (duration : Int) (interrupted : Bool) : LedM Unit := fun s d =>
  if duration < 0 then (.error .SleepValueError, s, d)
  else if interrupted then (.error .Interrupted, s, d)
  else (.ok (), s, d)

/-- An `if x is not None:` guarded setter application in `notify`. -/
def optStep {α : Type} (f : α → LedM Unit) : Option α → LedM Unit
  | some a => f a
  | none => pureM

/-- `LED.notify`: snapshot (`get_state_string`), apply the non-`None`
overrides through the validated setters, commit (`set_state`), wait
(`time.sleep`), restore (`set_state_from_string`).  The source is a plain
statement sequence with no `try`/`finally`, so an exception anywhere —
including one raised during the sleep — skips every later step. -/
def notify (c : Option ColorArg) (b : Option Int) (e : Option EffectArg)
    (duration : Int) (interrupted : Bool) : LedM Unit :=
  bindM get_state_string (fun current =>
  bindM (optStep set_color_arg c) (fun _ =>
  bindM (optStep set_brightness b) (fun _ =>
  bindM (optStep set_effect_arg e) (fun _ =>
  bindM set_state (fun _ =>
  bindM (sleep duration interrupted) (fun _ =>
  set_state_from_string current))))))

/-! ## Synthetic status texts for the decode/serialize round-trip -/

/-- Capitalised target name as it appears in device status descriptions. -/
def Target.cap : Target → String
  | .ring => "Ring"
  | .power => "Power"

/-- Lower-case hex digit character (for codes below 16). -/
def hexDigitChar (n : Nat) : Char :=
  if n < 10 then Char.ofNat (48 + n) else Char.ofNat (87 + n)

/-- A synthetic status text whose color line carries the given hex code
(brightness 50, effect code `0x4` = solid). -/
def synthColorText (t : Target) (code : Int) : String :=
  t.cap ++ " Brightness: 50%\n" ++ t.cap ++ " Blink: (0x4)\n" ++
  t.cap ++ " Color: (0x" ++ String.singleton (hexDigitChar code.toNat) ++ ")"

/-- A synthetic status text whose blink line carries the given hex code
(brightness 50, color code `0x0` = off, valid for both targets). -/
def synthEffectText (t : Target) (code : Int) : String :=
  t.cap ++ " Brightness: 50%\n" ++ t.cap ++ " Blink: (0x" ++
  String.singleton (hexDigitChar code.toNat) ++ ")\n" ++ t.cap ++ " Color: (0x0)"

/-- Decode a device text on a fresh instance and serialize the result:
`get_state_string` fetches (brightness starts unset) and then builds the
command string. -/
def roundtripSerialize (t : Target) (text : String) : Except LedError String :=
  (get_state_string (freshLED t) ⟨text, [], 0⟩).1

/-! ## Helper view of the fetch loop

`handleLine` never *reads* the instance fields, so a line list denotes a
per-field "latest assignment" overlay; `runUpd` computes it and
`processLines_eq_runUpd` proves the loop equal to applying it.  This lets
theorems reason about a re-fetch that starts from a mutated state. -/

/-- Right-biased-towards-the-first-argument option mask: a `some` overlay
entry overrides, a `none` entry keeps the underlying value. -/
def maskOpt {α : Type} : Option α → Option α → Option α
  | some v, _ => some v
  | none, x => x

/-- Apply an overlay (latest brightness/color/effect assignments) to a
state. -/
def overlayApply (o : Option Int × Option Color × Option Effect) (s : LEDState) : LEDState :=
  ⟨s.target, maskOpt o.1 s.brightness, maskOpt o.2.1 s.color, maskOpt o.2.2 s.effect⟩

/-- Pre-compose one line's assignment with an overlay of later lines. -/
def updThen (u : Upd) (o : Option Int × Option Color × Option Effect) :
    Option Int × Option Color × Option Effect :=
  match u with
  | .skip => o
  | .setB n => (maskOpt o.1 (some n), o.2.1, o.2.2)
  | .setC c => (o.1, maskOpt o.2.1 (some c), o.2.2)
  | .setE e => (o.1, o.2.1, maskOpt o.2.2 (some e))

/-- The loop outcome and overlay of a line list (overlay truncated at the
first erroring line, matching the exception semantics). -/
def runUpd (t : Target) : List (List Char) →
    Except LedError Unit × (Option Int × Option Color × Option Effect)
  | [] => (.ok (), (none, none, none))
  | l :: ls =>
    match handleLine t l with
    | .error e => (.error e, (none, none, none))
    | .ok u =>
      let p := runUpd t ls
      (p.1, updThen u p.2)

theorem maskOpt_none {α : Type} (x : Option α) : maskOpt x none = x := by
  cases x <;> rfl

theorem maskOpt_mask_some {α : Type} (x : Option α) (v : α) (y : Option α) :
    maskOpt (maskOpt x (some v)) y = maskOpt x (some v) := by
  cases x <;> rfl

theorem overlayApply_applyUpd (u : Upd) (o : Option Int × Option Color × Option Effect)
    (s : LEDState) : overlayApply o (applyUpd u s) = overlayApply (updThen u o) s := by
  cases u <;> simp [overlayApply, applyUpd, updThen, maskOpt_mask_some]

theorem processLines_eq_runUpd (t : Target) (ls : List (List Char)) (s : LEDState) :
    processLines t ls s = ((runUpd t ls).1, overlayApply (runUpd t ls).2 s) := by
  induction ls generalizing s with
  | nil => simp [processLines, runUpd, overlayApply, maskOpt]
  | cons l ls ih =>
    simp only [processLines, runUpd]
    cases h : handleLine t l with
    | error e => simp [overlayApply, maskOpt]
    | ok u => simp [ih (applyUpd u s), overlayApply_applyUpd]

/-- A fetch that filled in all three fields starting from a fresh instance
fills in the same three values starting from any same-target state. -/
theorem processLines_of_full (t : Target) (ls : List (List Char))
    (b : Int) (c : Color) (e : Effect)
    (H : processLines t ls (freshLED t) = (.ok (), ⟨t, some b, some c, some e⟩))
    (s : LEDState) (hs : s.target = t) :
    processLines t ls s = (.ok (), ⟨t, some b, some c, some e⟩) := by
  rw [processLines_eq_runUpd] at H ⊢
  have H1 : (runUpd t ls).1 = .ok () := congrArg Prod.fst H
  have H2 : overlayApply (runUpd t ls).2 (freshLED t) = ⟨t, some b, some c, some e⟩ :=
    congrArg Prod.snd H
  rw [H1]
  rcases ho : (runUpd t ls).2 with ⟨ob, oc, oe⟩
  rw [ho] at H2
  simp only [overlayApply, freshLED, maskOpt_none, LEDState.mk.injEq] at H2
  obtain ⟨-, hb, hc, he⟩ := H2
  subst hb hc he
  simp [overlayApply, maskOpt, hs]

/-- The fetch loop never changes which LED an instance addresses. -/
theorem processLines_target (t : Target) (ls : List (List Char)) (s : LEDState) :
    (processLines t ls s).2.target = s.target := by
  rw [processLines_eq_runUpd]
  rfl

/-- Fetching never writes to the device. -/
theorem fetch_state_writes (s : LEDState) (d : Device) :
    (fetch_state s d).2.2.writes = d.writes := rfl

/-- Fetching never changes the target. -/
theorem fetch_state_target (s : LEDState) (d : Device) :
    (fetch_state s d).2.1.target = s.target :=
  processLines_target s.target (linesOf d.text) s

/-- `get_state_string` (even when it lazily fetches) never writes. -/
theorem get_state_string_writes (s : LEDState) (d : Device) :
    (get_state_string s d).2.2.writes = d.writes := by
  unfold get_state_string
  rcases hb : s.brightness with _ | b
  · dsimp only
    rcases hf : fetch_state s d with ⟨r, s1, d1⟩
    have hw : d1.writes = d.writes := by
      have h := fetch_state_writes s d
      rw [hf] at h
      exact h
    cases r
    · exact hw
    · dsimp only
      split <;> exact hw
  · dsimp only
    split <;> rfl

/-- `get_state_string` never changes the target. -/
theorem get_state_string_target (s : LEDState) (d : Device) :
    (get_state_string s d).2.1.target = s.target := by
  unfold get_state_string
  rcases hb : s.brightness with _ | b
  · dsimp only
    rcases hf : fetch_state s d with ⟨r, s1, d1⟩
    have hw : s1.target = s.target := by
      have h := fetch_state_target s d
      rw [hf] at h
      exact h
    cases r
    · exact hw
    · dsimp only
      split <;> exact hw
  · dsimp only
    split <;> rfl

/-- The parse helpers never raise the line-splitting error. -/
theorem parse_code_ne_malformed (v : List Char) :
    parse_code v ≠ .error .MalformedStateLine := by
  unfold parse_code
  split
  · simp
  · split <;> simp

theorem parse_brightness_ne_malformed (v : List Char) :
    parse_brightness v ≠ .error .MalformedStateLine := by
  unfold parse_brightness
  split <;> simp

theorem parse_effect_ne_malformed (v : List Char) :
    parse_effect v ≠ .error .MalformedStateLine := by
  unfold parse_effect
  split
  · rename_i e heq
    simp only [ne_eq, Except.error.injEq]
    intro h
    rw [h] at heq
    exact parse_code_ne_malformed v heq
  · split <;> simp

theorem parse_color_ne_malformed (t : Target) (v : List Char) :
    parse_color t v ≠ .error .MalformedStateLine := by
  unfold parse_color
  split
  · rename_i e heq
    simp only [ne_eq, Except.error.injEq]
    intro h
    rw [h] at heq
    exact parse_code_ne_malformed v heq
  · split <;> simp

/-- Mapping a constructor over a parse result cannot introduce the
line-splitting error. -/
theorem map_ne_malformed {α : Type} (f : α → Upd) (x : Except LedError α)
    (hx : x ≠ .error .MalformedStateLine) :
    Except.map f x ≠ .error .MalformedStateLine := by
  cases x with
  | error e => simpa [Except.map] using hx
  | ok v => simp [Except.map]

/-! ## Claim theorems -/

/-- C1: the claim states that the restore write runs on every exit path of
`notify`, including the path where the wait raises.  The source has no
`try`/`finally`, so this fails: evaluating `notify` on a fetched ring
instance with state `ring,50,none,blue`, overriding the color to red, with
the sleep interrupted, shows the override commit was written, the exception
propagated, and the restore write never happened — the device trace holds
exactly one write and the LED stays in the overridden state. -/
theorem notify_interrupted_skips_restore :
    notify (some (.str "red")) none none 5 true
        ⟨.ring, some 50, some .Blue, some .Solid⟩ ⟨"", [], 0⟩
      = (.error .Interrupted, ⟨.ring, some 50, some .Red, some .Solid⟩,
         ⟨"", ["ring,50,none,red"], 0⟩) := rfl

/-- C2 counterexample: a failed fetch is claimed to leave the fields exactly
as they were, but on the text `"Ring Brightness: 42%\nRing Color (0x04)"`
(second line lacks `:`) an instance with brightness 50 ends the failed
fetch with brightness 42: the line before the malformed one already updated
the field. -/
theorem fetch_state_partial_update :
    fetch_state ⟨.ring, some 50, some .Blue, some .Solid⟩
        ⟨"Ring Brightness: 42%\nRing Color (0x04)", [], 0⟩
      = (.error .MalformedStateLine, ⟨.ring, some 42, some .Blue, some .Solid⟩,
         ⟨"Ring Brightness: 42%\nRing Color (0x04)", [], 1⟩) ∧
    (⟨.ring, some 42, some .Blue, some .Solid⟩ : LEDState)
      ≠ ⟨.ring, some 50, some .Blue, some .Solid⟩ :=
  ⟨rfl, by decide⟩

/-- C2 amended: when the malformed (no-`:`) line comes before any relevant
field line — here: when it is the first line the loop meets — the fetch
fails with `MalformedStateLine` and every previously-set field is exactly
what it was before the attempt (the whole state is returned unchanged). -/
theorem fetch_malformed_first_leaves_fields (t : Target) (s : LEDState)
    (ls : List (List Char)) (l : List Char)
    (h1 : pyStrip l ≠ []) (h2 : pyStrip l ≠ ['\x00'])
    (h3 : (splitOnChar ':' (pyStrip l)).length = 1) :
    processLines t (l :: ls) s = (.error .MalformedStateLine, s) := by
  obtain ⟨x, hx⟩ := List.length_eq_one.mp h3
  have hl : handleLine t l = .error .MalformedStateLine := by
    unfold handleLine
    rcases hs : pyStrip l with _ | ⟨c, cs⟩
    · exact absurd hs h1
    · rw [hs] at h2 hx
      have hb : ((c :: cs) == ['\x00']) = false := by
        simpa using h2
      simp only [hb, hx]
      rfl
  simp [processLines, hl]

/-- C2 amended, witness: the no-`:` line `"Ring Color (0x04)"` placed first
fails the fetch and leaves a fully-populated state untouched. -/
theorem fetch_malformed_first_leaves_fields_witness :
    processLines .ring ["Ring Color (0x04)".toList]
        ⟨.ring, some 50, some .Blue, some .Solid⟩
      = (.error .MalformedStateLine, ⟨.ring, some 50, some .Blue, some .Solid⟩) :=
  fetch_malformed_first_leaves_fields .ring _ [] _ (by decide) (by decide) (by decide)

/-- C6: `set_brightness` stores exactly the integers of `[0, 100]` and
raises `BrightnessOutOfRange` for every other integer (so in particular for
-1 and 101); the stored value is the argument itself, never a clamp. -/
theorem set_brightness_range (n : Int) (s : LEDState) (d : Device) :
    set_brightness n s d =
      if 0 ≤ n ∧ n ≤ 100 then (.ok (), ⟨s.target, some n, s.color, s.effect⟩, d)
      else (.error .BrightnessOutOfRange, s, d) := by
  unfold set_brightness
  by_cases h : 0 ≤ n ∧ n ≤ 100
  · rw [if_neg (by omega), if_pos h]
  · rw [if_pos (by omega), if_neg h]

/-- C7: the color setter succeeds exactly on membership in the target's
`supported_colors.values()` and raises `UnsupportedColor` otherwise; Green
is in the ring set and not in the power set, so `set_color(Green)` always
succeeds on a ring instance and always fails on a power instance. -/
theorem set_color_membership :
    (∀ (s : LEDState) (d : Device) (c : Color),
      set_color_arg (.col c) s d =
        if c ∈ supportedColorValues s.target then
          (.ok (), ⟨s.target, s.brightness, some c, s.effect⟩, d)
        else (.error .UnsupportedColor, s, d)) ∧
    Color.Green ∈ supportedColorValues .ring ∧
    Color.Green ∉ supportedColorValues .power :=
  ⟨fun _ _ _ => rfl, by decide, by decide⟩

/-- C9: `get_state_string` decides whether to fetch solely from
`_brightness`: when brightness is set but color or effect is still unset it
performs no device read (the device is returned untouched, read counter
included), changes no field, and fails dereferencing the unset field
instead of fetching it or returning a snapshot. -/
theorem get_state_string_lazy_on_brightness (s : LEDState) (d : Device) (b : Int)
    (hb : s.brightness = some b) (h : s.color = none ∨ s.effect = none) :
    get_state_string s d = (.error .NoneDereference, s, d) := by
  obtain ⟨t, sb, sc, se⟩ := s
  dsimp only at hb h
  subst hb
  rcases h with h | h <;> subst h
  · cases se <;> rfl
  · cases sc <;> rfl

/-- C9 witness: brightness set, color and effect unset. -/
theorem get_state_string_lazy_on_brightness_witness :
    get_state_string ⟨.ring, some 50, none, none⟩ ⟨"", [], 0⟩
      = (.error .NoneDereference, ⟨.ring, some 50, none, none⟩, ⟨"", [], 0⟩) :=
  get_state_string_lazy_on_brightness _ _ 50 rfl (Or.inl rfl)

/-- C5 counterexample: the claim says a line with more than one `:` is
split at the first `:` and parsed normally rather than failing.  On the
text `"a:b:c"` — whose description `"a"` is not even target-relevant, so
first-`:`-splitting would simply skip it — the fetch fails with
`MalformedStateLine`: `l.split(":")` has no maxsplit, the three parts do
not unpack into two names. -/
theorem fetch_two_colon_line_fails :
    fetch_state (freshLED .ring) ⟨"a:b:c", [], 0⟩
      = (.error .MalformedStateLine, freshLED .ring, ⟨"a:b:c", [], 1⟩) := rfl

/-- C5 amended: a non-blank, non-null line raises `MalformedStateLine`
exactly when splitting it on `:` does not yield exactly two parts — lines
lacking `:` fail, and lines with more than one `:` fail too instead of
being split at the first `:`; a line with exactly one `:` never raises
`MalformedStateLine` (though its value may fail to parse with a different
error). -/
theorem split_colon_exactness :
    (∀ (t : Target) (s : LEDState) (ls : List (List Char)) (l : List Char),
      pyStrip l ≠ [] → pyStrip l ≠ ['\x00'] →
      (splitOnChar ':' (pyStrip l)).length ≠ 2 →
      (processLines t (l :: ls) s).1 = .error .MalformedStateLine) ∧
    (∀ (t : Target) (l : List Char),
      (splitOnChar ':' (pyStrip l)).length = 2 →
      handleLine t l ≠ .error .MalformedStateLine) := by
  constructor
  · intro t s ls l h1 h2 h3
    have hl : handleLine t l = .error .MalformedStateLine := by
      unfold handleLine
      rcases hs : pyStrip l with _ | ⟨c, cs⟩
      · exact absurd hs h1
      · rw [hs] at h2 h3
        have hb : ((c :: cs) == ['\x00']) = false := by
          simpa using h2
        simp only [hb]
        rcases hsp : splitOnChar ':' (c :: cs) with _ | ⟨a, _ | ⟨b, _ | _⟩⟩ <;>
          first
            | rfl
            | (rw [hsp] at h3; exact absurd rfl h3)
    simp [processLines, hl]
  · intro t l h
    unfold handleLine
    rcases hs : pyStrip l with _ | ⟨c, cs⟩
    · simp
    · rw [hs] at h
      obtain ⟨a, b, hab⟩ := List.length_eq_two.mp h
      simp only [hab]
      split_ifs <;>
        first
        | (simp; done)
        | exact map_ne_malformed _ _ (parse_brightness_ne_malformed b)
        | exact map_ne_malformed _ _ (parse_effect_ne_malformed b)
        | exact map_ne_malformed _ _ (parse_color_ne_malformed t b)

/-- C5 witness: `"a:b:c"` (three parts) raises `MalformedStateLine`, the
one-`:` line `"Ring Brightness: 50%"` does not. -/
theorem split_colon_exactness_witness :
    (processLines .ring ["a:b:c".toList] (freshLED .ring)).1
        = .error .MalformedStateLine ∧
    handleLine .ring "Ring Brightness: 50%".toList ≠ .error .MalformedStateLine :=
  ⟨split_colon_exactness.1 .ring _ [] _ (by decide) (by decide) (by decide),
   split_colon_exactness.2 .ring _ (by decide)⟩

/-- C3: on a ring instance whose device text parses (from a fresh fetch) to
the fields serialized as `"ring,50,none,blue"`, calling
`notify(color="red", brightness=None, effect=None, duration=0)` performs
exactly two device writes, `"ring,50,none,red"` first (the override commit)
and `"ring,50,none,blue"` second (the restore), and nothing else changes in
the trace beyond the two reads of the snapshot fetch and the restore
re-fetch. -/
theorem notify_two_writes (d : Device)
    (H : processLines .ring (linesOf d.text) (freshLED .ring)
          = (.ok (), ⟨.ring, some 50, some .Blue, some .Solid⟩)) :
    notify (some (.str "red")) none none 0 false (freshLED .ring) d
      = (.ok (), ⟨.ring, some 50, some .Blue, some .Solid⟩,
         ⟨d.text, d.writes ++ ["ring,50,none,red", "ring,50,none,blue"], d.reads + 2⟩) := by
  have H2 : processLines .ring (linesOf d.text) ⟨.ring, some 50, some .Red, some .Solid⟩
      = (.ok (), ⟨.ring, some 50, some .Blue, some .Solid⟩) :=
    processLines_of_full .ring _ 50 .Blue .Solid H _ rfl
  simp only [freshLED] at H
  have hmem : (Color.Red ∈ supportedColorValues Target.ring) = True := eq_true (by decide)
  simp only [notify, bindM, optStep, get_state_string, fetch_state, freshLED,
    set_state, set_state_from_string, set_color_arg, resolveColor, colorOfValue,
    sleep, pureM, writeDev, hmem, if_true, H, H2]
  simp [stateString, Target.name, Effect.value, Color.value, List.append_assoc]
  exact ⟨by rw [H2], by rw [H2], rfl, rfl⟩

/-- C3 witness: the concrete device text
`"Ring Brightness: 50%\nRing Blink: (0x04)\nRing Color: (0x04)"` parses to
brightness 50, solid effect, blue color, and notify writes exactly the
override then the restore. -/
theorem notify_two_writes_witness :
    notify (some (.str "red")) none none 0 false (freshLED .ring)
        ⟨"Ring Brightness: 50%\nRing Blink: (0x04)\nRing Color: (0x04)", [], 0⟩
      = (.ok (), ⟨.ring, some 50, some .Blue, some .Solid⟩,
         ⟨"Ring Brightness: 50%\nRing Blink: (0x04)\nRing Color: (0x04)",
          ["ring,50,none,red", "ring,50,none,blue"], 2⟩) := by
  have h := notify_two_writes
    ⟨"Ring Brightness: 50%\nRing Blink: (0x04)\nRing Color: (0x04)", [], 0⟩ (by rfl)
  simpa using h

/-- C4 counterexample: notify with an invalid color is claimed to leave the
in-memory fields unchanged for *every* call, but on a fresh (never-fetched)
ring instance the snapshot step lazily fetches first: the call still fails
with `UnsupportedColor` and writes nothing, yet brightness/color/effect go
from unset to the device's values — the fields did change. -/
theorem notify_invalid_color_fresh_fetches :
    notify (some (.str "amber")) none none 0 false (freshLED .ring)
        ⟨"Ring Brightness: 50%\nRing Blink: (0x04)\nRing Color: (0x04)", [], 0⟩
      = (.error .UnsupportedColor, ⟨.ring, some 50, some .Blue, some .Solid⟩,
         ⟨"Ring Brightness: 50%\nRing Blink: (0x04)\nRing Color: (0x04)", [], 1⟩) ∧
    (⟨.ring, some 50, some .Blue, some .Solid⟩ : LEDState) ≠ freshLED .ring :=
  ⟨rfl, by decide⟩

/-- C4 amended: notify with a color outside the target's supported set
always fails and always performs zero device writes; the in-memory fields
are left exactly unchanged whenever the instance was already populated (so
the snapshot step does not fetch) — on an unpopulated instance the snapshot
fetch populates the fields from the device, but the invalid color itself is
never stored and still nothing is written. -/
theorem notify_invalid_color_aborts :
    (∀ (s : LEDState) (d : Device) (b0 : Int) (c0 : Color) (e0 : Effect) (c : Color)
      (ob : Option Int) (oe : Option EffectArg) (dur : Int) (intr : Bool),
      s.brightness = some b0 → s.color = some c0 → s.effect = some e0 →
      c ∉ supportedColorValues s.target →
      notify (some (.col c)) ob oe dur intr s d = (.error .UnsupportedColor, s, d)) ∧
    (∀ (s : LEDState) (d : Device) (c : Color)
      (ob : Option Int) (oe : Option EffectArg) (dur : Int) (intr : Bool),
      c ∉ supportedColorValues s.target →
      (notify (some (.col c)) ob oe dur intr s d).2.2.writes = d.writes) := by
  constructor
  · intro s d b0 c0 e0 c ob oe dur intr hb hc he hcv
    obtain ⟨t, sb, sc, se⟩ := s
    dsimp only at hb hc he hcv
    subst hb hc he
    simp only [notify, bindM, optStep, get_state_string, set_color_arg,
      resolveColor, pureM]
    simp [hcv]
  · intro s d c ob oe dur intr hcv
    have ht := get_state_string_target s d
    have hw := get_state_string_writes s d
    simp only [notify, bindM]
    rcases hg : get_state_string s d with ⟨r, s1, d1⟩
    rw [hg] at ht hw
    cases r
    · exact hw
    · have hcv1 : c ∉ supportedColorValues s1.target := by
        rw [ht]
        exact hcv
      simp only [optStep, set_color_arg, resolveColor]
      simp [hcv1]
      exact hw

/-- C4 amended, witness: on a populated ring instance, notify with amber
(unsupported on ring) fails with `UnsupportedColor`, leaves state and
device untouched, and in particular appends no write. -/
theorem notify_invalid_color_aborts_witness :
    notify (some (.col .Amber)) none none 0 false
        ⟨.ring, some 50, some .Blue, some .Solid⟩ ⟨"", [], 0⟩
      = (.error .UnsupportedColor, ⟨.ring, some 50, some .Blue, some .Solid⟩,
         ⟨"", [], 0⟩) ∧
    (notify (some (.col .Amber)) none none 0 false
        ⟨.ring, some 50, some .Blue, some .Solid⟩ ⟨"", [], 0⟩).2.2.writes = [] :=
  ⟨notify_invalid_color_aborts.1 _ _ 50 .Blue .Solid .Amber none none 0 false
      rfl rfl rfl (by decide),
   notify_invalid_color_aborts.2 _ ⟨"", [], 0⟩ .Amber none none 0 false (by decide)⟩

/-- C10: on a populated instance, notify with a valid color but an
out-of-range brightness fails with `BrightnessOutOfRange` and performs zero
device writes (the device is untouched entirely), yet the in-memory color
field keeps the overridden value: the already-applied color override is not
rolled back when the later brightness validation fails. -/
theorem notify_no_rollback_of_color (s : LEDState) (d : Device)
    (b0 : Int) (c0 : Color) (e0 : Effect) (c : Color) (n : Int)
    (oe : Option EffectArg) (dur : Int) (intr : Bool)
    (hb : s.brightness = some b0) (hc : s.color = some c0) (he : s.effect = some e0)
    (hcv : c ∈ supportedColorValues s.target) (hn : n < 0 ∨ 100 < n) :
    notify (some (.col c)) (some n) oe dur intr s d
      = (.error .BrightnessOutOfRange, ⟨s.target, some b0, some c, some e0⟩, d) := by
  obtain ⟨t, sb, sc, se⟩ := s
  dsimp only at hb hc he hcv
  subst hb hc he
  simp only [notify, bindM, optStep, get_state_string, set_color_arg,
    resolveColor, set_brightness, pureM]
  simp [hcv, hn]

/-- C10 witness: valid green override plus brightness 101 on a populated
ring instance: the call fails, nothing is written, and the color field now
holds green. -/
theorem notify_no_rollback_of_color_witness :
    notify (some (.col .Green)) (some 101) none 0 false
        ⟨.ring, some 50, some .Blue, some .Solid⟩ ⟨"", [], 0⟩
      = (.error .BrightnessOutOfRange, ⟨.ring, some 50, some .Green, some .Solid⟩,
         ⟨"", [], 0⟩) :=
  notify_no_rollback_of_color _ _ 50 .Blue .Solid .Green 101 none 0 false
    rfl rfl rfl (by decide) (by decide)

/-- C8: for every code in a target's color table and every code in the
global effect table, fetching a synthetic status line that carries the hex
code and then serializing reproduces the decoded member's symbolic string
in the command string (in particular effect codes `0x0` and `0x4` both
serialize as `"none"`, which the effect-table cases `(0, Solid)` and
`(4, Solid)` instantiate). -/
theorem decode_serialize_roundtrip :
    (∀ (t : Target) (p : Int × Color), p ∈ t.colorMap →
      roundtripSerialize t (synthColorText t p.1)
        = .ok (t.name ++ ",50,none," ++ p.2.value)) ∧
    (∀ (t : Target) (q : Int × Effect), q ∈ EFFECT_MAP →
      roundtripSerialize t (synthEffectText t q.1)
        = .ok (t.name ++ ",50," ++ q.2.value ++ ",off")) := by
  constructor
  · intro t p hp
    cases t <;> fin_cases hp <;> rfl
  · intro t q hq
    cases t <;> fin_cases hq <;> rfl

/-- C8 witness: ring color code `0x4` decodes to blue and serializes as
`"blue"`; ring effect code `0x4` decodes to solid and serializes as
`"none"`. -/
theorem decode_serialize_roundtrip_witness :
    roundtripSerialize .ring (synthColorText .ring 4) = .ok "ring,50,none,blue" ∧
    roundtripSerialize .ring (synthEffectText .ring 4) = .ok "ring,50,none,off" :=
  ⟨decode_serialize_roundtrip.1 .ring (4, .Blue) (by decide),
   decode_serialize_roundtrip.2 .ring (4, .Solid) (by decide)⟩

end Nucled
